import Mathlib

/-
Verification of the binary geometry emitter in generate_gltf_bin.py.

The script defines four constant arrays (positions, normals, colors,
indices), serializes each element as a 4-byte value with struct.pack
(format f for the three float arrays, format I for the index array),
concatenates the results into one buffer, writes the buffer to
models/scene.bin, and prints the byte count.

Python float literals such as 0.577 denote decimal rationals, so the
arrays are embedded as lists of rationals; struct.pack with format f is
embedded as rounding the rational to the nearest IEEE 754 binary32 value
(round to nearest, ties to even) and emitting its four bytes in
little-endian order, which is the native byte order of the platforms the
script targets.
-/

set_option maxRecDepth 8000

namespace GenerateGltfBin

/-- Cube vertex positions (8 vertices times 3 components), the literal
decimal values of the script. -/
def positions : List ℚ := [
  -1.0, -1.0, -1.0,
   1.0, -1.0, -1.0,
   1.0,  1.0, -1.0,
  -1.0,  1.0, -1.0,
  -1.0, -1.0,  1.0,
   1.0, -1.0,  1.0,
   1.0,  1.0,  1.0,
  -1.0,  1.0,  1.0]

/-- Vertex normals (8 vertices times 3 components), the literal decimal
values of the script. -/
def normals : List ℚ := [
  -0.577, -0.577, -0.577,
   0.577, -0.577, -0.577,
   0.577,  0.577, -0.577,
  -0.577,  0.577, -0.577,
  -0.577, -0.577,  0.577,
   0.577, -0.577,  0.577,
   0.577,  0.577,  0.577,
  -0.577,  0.577,  0.577]

/-- Vertex colors (8 vertices times 3 channels), the literal decimal
values of the script. -/
def colors : List ℚ := [
  1.0, 0.0, 0.0,
  0.0, 1.0, 0.0,
  0.0, 0.0, 1.0,
  1.0, 1.0, 0.0,
  1.0, 0.0, 1.0,
  0.0, 1.0, 1.0,
  1.0, 1.0, 1.0,
  0.5, 0.5, 0.5]

/-- Triangle indices of the cube (36 indices for 12 triangles), in the
order listed in the script. -/
def indices : List ℕ := [
  0, 1, 2, 2, 3, 0,
  4, 6, 5, 6, 4, 7,
  4, 0, 3, 3, 7, 4,
  1, 5, 6, 6, 2, 1,
  3, 2, 6, 6, 7, 3,
  4, 5, 1, 1, 0, 4]

/-- Two to an integer power, as a rational. -/
def pow2 (k : ℤ) : ℚ := if 0 ≤ k then 2 ^ k.toNat else 1 / 2 ^ (-k).toNat

/-- Round a nonnegative rational to the nearest integer, ties going to the
even neighbour (the IEEE 754 default rounding, restricted to the
nonnegative inputs it is applied to below). -/
def rne (q : ℚ) : ℤ :=
  let fl : ℤ := q.num / (q.den : ℤ)
  let fr : ℚ := q - (fl : ℚ)
  if fr < 1/2 then fl
  else if (1 : ℚ)/2 < fr then fl + 1
  else if fl % 2 = 0 then fl else fl + 1

/-- Scale a positive rational into the interval [1, 2) by repeated
doubling or halving, returning the scaled value and the binary exponent;
the fuel bound covers the whole binary32 range. -/
def norm2 : ℕ → ℚ → ℤ → ℚ × ℤ
  | 0, a, e => (a, e)
  | n+1, a, e =>
      if a < 1 then norm2 n (2 * a) (e - 1)
      else if 2 ≤ a then norm2 n (a / 2) (e + 1)
      else (a, e)

/-- The bit pattern of the IEEE 754 binary32 value nearest to a rational
(round to nearest, ties to even), with subnormals, signed zero and
overflow to infinity. This is the conversion struct.pack with format f
performs on each scalar before emitting its four bytes. -/
def f32bits (q : ℚ) : ℕ :=
  if q = 0 then 0 else
  let s : ℕ := if q < 0 then 2 ^ 31 else 0
  let a : ℚ := if q < 0 then -q else q
  let e : ℤ := max (norm2 300 a 0).2 (-126)
  let m : ℤ := rne (a * pow2 (23 - e))
  if m < 2 ^ 23 then s + m.toNat
  else
    let e2 : ℤ := if m < 2 ^ 24 then e else e + 1
    let m2 : ℤ := if m < 2 ^ 24 then m else 2 ^ 23
    if 128 ≤ e2 then s + 255 * 2 ^ 23
    else s + (e2 + 127).toNat * 2 ^ 23 + (m2 - 2 ^ 23).toNat

/-- The four bytes of a 32-bit word in little-endian order. -/
def pack4LE (n : ℕ) : List ℕ :=
  [n % 256, n / 256 % 256, n / 65536 % 256, n / 16777216 % 256]

/-- struct.pack with format f: the four little-endian bytes of the
binary32 encoding of the value. -/
def packF (q : ℚ) : List ℕ := pack4LE (f32bits q)

/-- struct.pack with format I: the four little-endian bytes of an
unsigned 32-bit integer (struct.pack rejects values outside [0, 2^32);
every index of the script is below 8, so the encoding is total here). -/
def packI (n : ℕ) : List ℕ := pack4LE n

/-- The serialized buffer built by the script: positions, normals,
colors and indices, each packed element by element in order, then
concatenated. -/
def data : List ℕ :=
  (positions.map packF).flatten ++ (normals.map packF).flatten ++
  (colors.map packF).flatten ++ (indices.map packI).flatten

/-- Decode four little-endian bytes into a 32-bit word. -/
def decode4LE (bs : List ℕ) : ℕ :=
  match bs with
  | [b0, b1, b2, b3] => b0 + b1 * 256 + b2 * 65536 + b3 * 16777216
  | _ => 0

/-- Decode a byte list into 32-bit words, four little-endian bytes at a
time. -/
def decodeWords : List ℕ → List ℕ
  | b0 :: b1 :: b2 :: b3 :: rest =>
      (b0 + b1 * 256 + b2 * 65536 + b3 * 16777216) :: decodeWords rest
  | _ => []

/-- The rational value of a binary32 bit pattern (finite values; the
exponent field 255 encodes infinities and NaNs, which have no rational
value and are mapped to 0 — they do not occur in this development). -/
def f32val (b : ℕ) : ℚ :=
  let s : ℕ := b / 2 ^ 31
  let e : ℕ := b / 2 ^ 23 % 256
  let f : ℕ := b % 2 ^ 23
  let mag : ℚ :=
    if e = 255 then 0
    else if e = 0 then (f : ℚ) * pow2 (-149)
    else ((2 ^ 23 + f : ℕ) : ℚ) * pow2 ((e : ℤ) - 150)
  if s = 1 then -mag else mag

/-- The state of the filesystem the single write touches: whether the
target directory models/ exists, and whether it is writable. -/
structure FS where
  dirExists : Bool
  writable : Bool

/-- The observable outcome of one run: success carries the bytes written
to models/scene.bin and the byte count printed on standard output;
failure is a propagated filesystem error, with no file written and no
success message printed. -/
inductive RunResult where
  | ok (file : List ℕ) (printedCount : ℕ)
  | fsError
deriving DecidableEq

/-- One run of the script: build the buffer, open models/scene.bin for
writing — which raises a filesystem error when the directory is missing
or not writable, as Python open does, before anything is written or
printed — then write the whole buffer and print its length. -/
def runProgram (fs : FS) : RunResult :=
  if fs.dirExists && fs.writable then RunResult.ok data data.length
  else RunResult.fsError

/-- The sum of squares of the three normal components of vertex v. -/
def normSq (v : ℕ) : ℚ :=
  normals.getD (3 * v) 0 * normals.getD (3 * v) 0 +
  normals.getD (3 * v + 1) 0 * normals.getD (3 * v + 1) 0 +
  normals.getD (3 * v + 2) 0 * normals.getD (3 * v + 2) 0

/-- The t-th index triple (triangle) of the index buffer. -/
def tri (t : ℕ) : ℕ × ℕ × ℕ :=
  (indices.getD (3 * t) 0, indices.getD (3 * t + 1) 0, indices.getD (3 * t + 2) 0)

/-- Claim C1: the serialized buffer — the concatenation of the packed
positions, normals, colors and indices — is exactly 432 bytes long, and a
successful run writes those 432 bytes to the file and reports 432 as the
byte count. -/
theorem output_length_432 :
    data.length = 432 ∧ runProgram ⟨true, true⟩ = RunResult.ok data 432 := by
  with_unfolding_all decide

/-- Claim C2: in the output buffer, bytes [0,96) decode little-endian as
the 24 binary32 values of the positions constants, bytes [96,192) as those
of normals, bytes [192,288) as those of colors, and bytes [288,432) as the
36 uint32 values of indices, with element order preserved in each range. -/
theorem buffer_layout :
    decodeWords (data.take 96) = positions.map f32bits ∧
    decodeWords ((data.drop 96).take 96) = normals.map f32bits ∧
    decodeWords ((data.drop 192).take 96) = colors.map f32bits ∧
    decodeWords (data.drop 288) = indices := by
  with_unfolding_all decide

/-- Claim C3: the data-model invariant — positions, normals and colors
each hold 8 times 3 components, indices holds 36 values, every index is in
[0, 7], and the index count is a multiple of 3. -/
theorem arrays_invariant :
    positions.length = 8 * 3 ∧ normals.length = 8 * 3 ∧ colors.length = 8 * 3 ∧
    indices.length = 36 ∧ (∀ i ∈ indices, i ≤ 7) ∧ indices.length % 3 = 0 := by
  decide

/-- Witness for the bounded-membership part of the invariant, at the
concrete index value 2. -/
theorem arrays_invariant_witness : (2 : ℕ) ≤ 7 :=
  arrays_invariant.2.2.2.2.1 2 (by decide)

/-- Claim C4 (counterexample): the first normal triple has sum of squares
different from 1, so the claim that every normal is exactly unit length is
false at vertex 0. -/
theorem normals_unit_length_cex : normSq 0 ≠ 1 := by
  with_unfolding_all decide

/-- Claim C4 (amended): every normal triple has sum of squares exactly
998787/1000000 — approximately unit length, within 13/10000 of 1, but
strictly below 1 and never exactly 1. -/
theorem normals_approx_unit_length :
    ∀ v : Fin 8, normSq v.val = 998787 / 1000000 ∧
      1 - normSq v.val < 13 / 10000 ∧ normSq v.val < 1 := by
  intro v
  fin_cases v <;>
    exact ⟨Rat.ext (by with_unfolding_all decide) (by with_unfolding_all decide),
      by with_unfolding_all decide, by with_unfolding_all decide⟩

/-- Claim C5: every scalar of the file is a 4-byte little-endian value —
each packed word is four bytes whose little-endian decoding recovers the
word exactly, and decoding the whole buffer four bytes at a time yields the
binary32 encodings of the three float arrays followed by the raw uint32
index values. -/
theorem scalar_encoding_le :
    (∀ n : ℕ, n < 2 ^ 32 → (pack4LE n).length = 4 ∧ decode4LE (pack4LE n) = n) ∧
    decodeWords data = (positions ++ normals ++ colors).map f32bits ++ indices := by
  constructor
  · intro n h
    refine ⟨rfl, ?_⟩
    simp only [pack4LE, decode4LE]
    omega
  · with_unfolding_all decide

/-- Witness for the little-endian round trip at the concrete word
3735928559. -/
theorem scalar_encoding_le_witness :
    (pack4LE 3735928559).length = 4 ∧ decode4LE (pack4LE 3735928559) = 3735928559 :=
  scalar_encoding_le.1 3735928559 (by decide)

/-- Claim C6: the program is deterministic — any two successful runs, over
any filesystem states, write byte-identical file contents and report the
same byte count. -/
theorem output_deterministic (fs1 fs2 : FS) (f1 f2 : List ℕ) (n1 n2 : ℕ)
    (h1 : runProgram fs1 = RunResult.ok f1 n1)
    (h2 : runProgram fs2 = RunResult.ok f2 n2) : f1 = f2 ∧ n1 = n2 := by
  unfold runProgram at h1 h2
  split at h1
  · split at h2
    · injection h1 with hf1 hn1
      injection h2 with hf2 hn2
      exact ⟨hf1.symm.trans hf2, hn1.symm.trans hn2⟩
    · simp at h2
  · simp at h1

/-- Witness for determinism: two runs over the same writable filesystem
produce the same bytes and the same count. -/
theorem output_deterministic_witness : data = data ∧ data.length = data.length :=
  output_deterministic ⟨true, true⟩ ⟨true, true⟩ data data data.length data.length rfl rfl

/-- Claim C7: a run fails with a propagated filesystem error — carrying no
file bytes and no printed success message — exactly when the target
directory is missing or not writable; there are no other error paths. -/
theorem fs_error_characterization (fs : FS) :
    runProgram fs = RunResult.fsError ↔
      (fs.dirExists = false ∨ fs.writable = false) := by
  obtain ⟨d, w⟩ := fs
  cases d <;> cases w <;> simp [runProgram]

/-- Claim C8: with a models directory present and writable, the run
succeeds writing exactly the 432-byte buffer, and the first four bytes of
the file decode as the binary32 value -1. -/
theorem models_dir_scenario :
    runProgram ⟨true, true⟩ = RunResult.ok data 432 ∧
    data.length = 432 ∧ f32val (decode4LE (data.take 4)) = -1 :=
  ⟨by with_unfolding_all decide, by with_unfolding_all decide,
    Rat.ext (by with_unfolding_all decide) (by with_unfolding_all decide)⟩

/-- Claim C9: each of the 12 consecutive index triples consists of three
pairwise distinct vertex indices, so no encoded triangle is degenerate. -/
theorem triangles_nondegenerate :
    ∀ t : Fin 12, (tri t.val).1 ≠ (tri t.val).2.1 ∧
      (tri t.val).2.1 ≠ (tri t.val).2.2 ∧ (tri t.val).1 ≠ (tri t.val).2.2 := by
  decide

/-- Claim C10: every position component is -1 or 1, and the normal
component at the same position equals 0.577 times the sign of the position
component. -/
theorem normals_match_position_signs :
    ∀ i : Fin 24, (positions.getD i.val 0 = -1 ∨ positions.getD i.val 0 = 1) ∧
      normals.getD i.val 0 = 0.577 * (if positions.getD i.val 0 < 0 then -1 else 1) := by
  with_unfolding_all decide

end GenerateGltfBin
